import Mathlib

/-!
Verification of the Notion-Law-Data-Collector request relay.

The development shallowly embeds the JavaScript handlers of the repository:
strings are modelled as lists of character codes (`List Nat`), JavaScript
truthiness of optional string fields is modelled explicitly, and each handler
variant becomes a total Lean function.  The network is modelled by an
environment of upstream responses; handlers return their caller-facing
response together with the list of network calls they issued.
-/

namespace LawCollector

/-- Character codes of a Lean string literal; used to write concrete inputs. -/
def strCodes (s : String) : List Nat := s.data.map Char.toNat

/-- ASCII lower-casing of one character code (codes 65..90 map to 97..122),
modelling the case folding performed by the `i` regex flag and by
`toLowerCase` in the sources. -/
def toLowerCode (n : Nat) : Nat := if 65 ≤ n ∧ n ≤ 90 then n + 32 else n

/-- One character of the character class `[a-f0-9]` under the `i` flag,
i.e. a hexadecimal digit in either case. -/
def isHexCode (n : Nat) : Bool :=
  decide ((48 ≤ n ∧ n ≤ 57) ∨ (97 ≤ n ∧ n ≤ 102) ∨ (65 ≤ n ∧ n ≤ 70))

/-- the dash-removal step of the handlers (the global regex replace of dashes by the empty string): remove every dash
(code 45). -/
def stripDashes (s : List Nat) : List Nat := s.filter (fun c => c ≠ 45)

/-- The regex test `/^[a-f0-9]{32}$/i.test` applied to a whole string. -/
def matchesHex32 (s : List Nat) : Bool := s.length == 32 && s.all isHexCode

/-- The database-id validation used by every handler variant:
the 32-hex-digit regex test applied after dash removal. -/
def isValidDatabaseId (s : List Nat) : Bool := matchesHex32 (stripDashes s)

/-- Spec-side characterization (from the specification text, for the
refinement claim C4): after removing dashes the string is exactly 32
characters, each from `[a-fA-F0-9]`. -/
def specValidDatabaseId (s : List Nat) : Prop :=
  (stripDashes s).length = 32 ∧
    ∀ c ∈ stripDashes s,
      (48 ≤ c ∧ c ≤ 57) ∨ (97 ≤ c ∧ c ≤ 102) ∨ (65 ≤ c ∧ c ≤ 70)

instance (s : List Nat) : Decidable (specValidDatabaseId s) := by
  unfold specValidDatabaseId
  infer_instance

/-- String.prototype.startsWith on code lists. -/
def isPrefixCodes : List Nat → List Nat → Bool
  | [], _ => true
  | _ :: _, [] => false
  | a :: as, b :: bs => a == b && isPrefixCodes as bs

/-- String.prototype.includes on code lists: some suffix of the haystack
starts with the needle. -/
def containsSub (needle : List Nat) : List Nat → Bool
  | [] => isPrefixCodes needle []
  | c :: rest => isPrefixCodes needle (c :: rest) || containsSub needle rest

/-- Content sniffing of `safeNotionRequest` in `src/api/utils.js`
(lines 182-188): a string body is considered HTML when it contains the
exact token `<!DOCTYPE html>` or the exact token `<html>`. -/
def isHtmlBodySafe (body : List Nat) : Bool :=
  containsSub (strCodes "<!DOCTYPE html>") body ||
    containsSub (strCodes "<html>") body

/-- Outcome classification of a dispatched call whose upstream answered with
a string body. -/
inductive DispatchOutcome where
  | data (body : List Nat)
  | htmlResponse
  deriving DecidableEq

/-- Success-path classification performed by `safeNotionRequest` in
`src/api/utils.js`: an HTML-looking string body becomes the distinct
`isHtmlResponse` failure, anything else is returned as data. -/
def safeNotionRequestClassify (body : List Nat) : DispatchOutcome :=
  if isHtmlBodySafe body then .htmlResponse else .data body

/-- Error-path content sniffing of `createErrorHandler` in
`src/unnamed/part_003` (lines 47-57): the body is lower-cased first and then
searched for `<!doctype` or `<html`. -/
def errorHandlerIsHtml (body : List Nat) : Bool :=
  containsSub (strCodes "<!doctype") (body.map toLowerCode) ||
    containsSub (strCodes "<html") (body.map toLowerCode)

/-- Result of the credential configuration check. -/
inductive ConfigResult where
  | ok
  | errMissing
  | errFormat
  deriving DecidableEq

/-- The `validateNotionConfig` of `src/api/utils.js` (lines 11-15): it only
rejects an absent (or empty, hence falsy) key. -/
def validateNotionConfigBasic (key : Option (List Nat)) : ConfigResult :=
  match key with
  | none => .errMissing
  | some k => if k = [] then .errMissing else .ok

/-- The `validateNotionConfig` of `src/unnamed/part_003` (lines 17-28): it
rejects an absent key and a key that does not start with `secret_`. -/
def validateNotionConfigEnhanced (key : Option (List Nat)) : ConfigResult :=
  match key with
  | none => .errMissing
  | some k =>
    if k = [] then .errMissing
    else if isPrefixCodes (strCodes "secret_") k then .ok
    else .errFormat

/-- The `timeout` option passed to `axios.create` by every
`createNotionClient` variant (milliseconds). -/
def notionClientTimeoutMs : Nat := 30000

/-- The shape of a caught JavaScript error as the handlers probe it:
an optional transport error code, an optional upstream HTTP status
(`error.response.status`), and the `isHtmlResponse` marker. -/
structure JsError where
  code : Option (List Nat)
  respStatus : Option Nat
  isHtmlResponse : Bool

/-- An error constructed with `new Error(message)`: no transport code, no
upstream response, no HTML marker. -/
def plainError : JsError := ⟨none, none, false⟩

/-- A transport timeout error as surfaced by axios (`error.code` equal to
ETIMEDOUT, no HTTP response). -/
def timeoutError : JsError := ⟨some (strCodes "ETIMEDOUT"), none, false⟩

/-- The caller-facing envelope: HTTP status plus the boolean `error` field. -/
structure ApiResponse where
  status : Nat
  isError : Bool
  deriving DecidableEq

/-- The `sendError` of `src/api/utils.js` (lines 109-143): the envelope
always carries `error: true`; the status is 502 for HTML responses, 503 for
ECONNREFUSED, 504 for ETIMEDOUT, otherwise the status code the caller
passed (default 500 at call sites that pass none). -/
def sendErrorResp (e : JsError) (statusCode : Nat) : ApiResponse :=
  { status :=
      if e.isHtmlResponse then 502
      else if e.code = some (strCodes "ECONNREFUSED") then 503
      else if e.code = some (strCodes "ETIMEDOUT") then 504
      else statusCode
  , isError := true }

/-- The catch block of `src/api/testConnection.js` (the enhanced variant,
lines 62-99): HTML responses map to 502, upstream statuses 401/404/429/403
map to themselves, other upstream statuses pass through, ENOTFOUND and
ECONNREFUSED map to 503, ETIMEDOUT maps to 408, anything else to the
default 500 via `sendError`. -/
def testConnectionCatch (e : JsError) : ApiResponse :=
  if e.isHtmlResponse then sendErrorResp plainError 502
  else match e.respStatus with
    | some s => sendErrorResp plainError s
    | none =>
      if e.code = some (strCodes "ENOTFOUND") ∨
          e.code = some (strCodes "ECONNREFUSED") then
        sendErrorResp plainError 503
      else if e.code = some (strCodes "ETIMEDOUT") then
        sendErrorResp plainError 408
      else sendErrorResp plainError 500

/-- The catch block of `src/api/createPage.js` (lines 67-107): HTML
responses keep the upstream status (default 500) through `sendError`,
upstream statuses pass through with rephrased messages, ECONNABORTED and
ETIMEDOUT map to 408, ENOTFOUND and ECONNREFUSED map to 503, anything else
reaches `sendError` with the original error and the default 500. -/
def createPageCatch (e : JsError) : ApiResponse :=
  if e.isHtmlResponse then sendErrorResp e (e.respStatus.getD 500)
  else match e.respStatus with
    | some s => sendErrorResp plainError s
    | none =>
      if e.code = some (strCodes "ECONNABORTED") ∨
          e.code = some (strCodes "ETIMEDOUT") then
        sendErrorResp plainError 408
      else if e.code = some (strCodes "ENOTFOUND") ∨
          e.code = some (strCodes "ECONNREFUSED") then
        sendErrorResp plainError 503
      else sendErrorResp e 500

/-- The catch block of `src/api/queryDatabase.js` (lines 81-100): upstream
statuses pass through with rephrased messages; every other error reaches
`sendError` with the original error object and the default status 500. -/
def queryDatabaseCatch (e : JsError) : ApiResponse :=
  match e.respStatus with
  | some s => sendErrorResp plainError s
  | none => sendErrorResp e 500

/-- Upstream answer to a GET of a database resource: an HTTP-level error, or
a success whose JSON may or may not carry a `data_sources` field. -/
inductive UpstreamDbRead where
  | ok (dataSources : Option (List String))
  | err (status : Nat)
  deriving DecidableEq

/-- Outcome of `getDataSourceId`. -/
inductive ResolveResult where
  | ok (dataSourceId : String)
  | noDataSource
  | upstreamErr (status : Nat)
  deriving DecidableEq

/-- State threaded through the resolver of the Lambda variants: the
module-level `dataSourceCache` map plus a count of upstream database reads
issued so far. -/
structure ResolverState where
  cache : List (String × String)
  calls : Nat
  deriving DecidableEq

/-- First-match lookup in the cache, modelling `Map.has` and `Map.get`. -/
def cacheLookup : List (String × String) → String → Option String
  | [], _ => none
  | (k, v) :: rest, key => if k = key then some v else cacheLookup rest key

/-- The `getDataSourceId` of `src/lambda-create-page.js` and
`src/unnamed/part_009` (lines 45-75): return the cached id when present;
otherwise GET the database, fail with no-data-source when the
`data_sources` list is absent or empty, else cache and return the id of the
first entry. -/
def getDataSourceId (upstream : String → UpstreamDbRead)
    (st : ResolverState) (dbId : String) : ResolveResult × ResolverState :=
  match cacheLookup st.cache dbId with
  | some v => (.ok v, st)
  | none =>
    match upstream dbId with
    | .err s => (.upstreamErr s, ⟨st.cache, st.calls + 1⟩)
    | .ok none => (.noDataSource, ⟨st.cache, st.calls + 1⟩)
    | .ok (some []) => (.noDataSource, ⟨st.cache, st.calls + 1⟩)
    | .ok (some (d :: _)) => (.ok d, ⟨(dbId, d) :: st.cache, st.calls + 1⟩)

/-- The parent reference placed in the body of a `POST /pages` call:
a typed data-source reference or a plain database-id reference. -/
inductive PageParent where
  | dataSource (id : List Nat)
  | database (id : List Nat)
  deriving DecidableEq

/-- One network call issued by a create-page handler. -/
inductive NetCall where
  | getDatabase (id : List Nat)
  | postPage (parent : PageParent)
  deriving DecidableEq

/-- Upstream answer to a database read keyed by code-list ids, for the
inline resolution done by `src/api/createPage.js`. -/
inductive DbReadAnswer where
  | ok (dataSources : Option (List (List Nat)))
  | err (status : Nat)

/-- Environment of a create-page handler run: the answer to the database
GET and the result of the page POST (`none` = created, `some s` = upstream
HTTP error with status `s`). -/
structure Env where
  dbRead : List Nat → DbReadAnswer
  createRes : Option Nat

/-- The handler of `src/api/createPage.js`: validate presence of
`databaseId` and `properties`, validate the id format, require a `Title`
property, GET the database, reject an absent or empty `data_sources` list
with a 400, then POST the page with parent type `data_source_id` set to the
first data source.  The second component lists the network calls issued. -/
def apiCreatePage (env : Env) (databaseId : Option (List Nat))
    (properties : Option (List (List Nat))) : ApiResponse × List NetCall :=
  match databaseId, properties with
  | none, _ => (⟨400, true⟩, [])
  | some _, none => (⟨400, true⟩, [])
  | some dbId, some props =>
    if isValidDatabaseId dbId = true then
      if props.contains (strCodes "Title") = true then
        match env.dbRead dbId with
        | .err s => (createPageCatch ⟨none, some s, false⟩, [.getDatabase dbId])
        | .ok none => (⟨400, true⟩, [.getDatabase dbId])
        | .ok (some []) => (⟨400, true⟩, [.getDatabase dbId])
        | .ok (some (d :: _)) =>
          match env.createRes with
          | none =>
            (⟨201, false⟩, [.getDatabase dbId, .postPage (.dataSource d)])
          | some s =>
            (createPageCatch ⟨none, some s, false⟩,
             [.getDatabase dbId, .postPage (.dataSource d)])
      else (⟨400, true⟩, [])
    else (⟨400, true⟩, [])

/-- The `createPage` of the unified multi-platform handler
`src/unnamed/part_006` (lines 186-246): after the same validations it posts
the page directly with `parent: { database_id: cleanDatabaseId }` — the
dash-stripped raw database id — and never reads the database first. -/
def unifiedCreatePage (env : Env) (databaseId : Option (List Nat))
    (properties : Option (List (List Nat))) : ApiResponse × List NetCall :=
  match databaseId, properties with
  | none, _ => (⟨400, true⟩, [])
  | some _, none => (⟨400, true⟩, [])
  | some dbId, some props =>
    if matchesHex32 (stripDashes dbId) = true then
      if props.contains (strCodes "Title") = true then
        match env.createRes with
        | none =>
          (⟨201, false⟩, [.postPage (.database (stripDashes dbId))])
        | some s =>
          (⟨s, true⟩, [.postPage (.database (stripDashes dbId))])
      else (⟨400, true⟩, [])
    else (⟨400, true⟩, [])

/-- A sort criterion: either the `created_time` timestamp or a named
property, with a direction. -/
inductive SortKey where
  | timestampCreated
  | property (name : List Nat)
  deriving DecidableEq

/-- One entry of a `sorts` array. -/
structure SortSpec where
  key : SortKey
  descending : Bool
  deriving DecidableEq

/-- An opaque caller-supplied filter object (JavaScript objects are always
truthy, so presence alone decides forwarding). -/
structure FilterObj where
  blob : List Nat
  deriving DecidableEq

/-- The caller-facing body of a query request. -/
structure QueryReqBody where
  sorts : Option (List SortSpec)
  page_size : Option Nat
  filter : Option FilterObj
  start_cursor : Option (List Nat)

/-- The query body sent upstream. -/
structure QueryData where
  sorts : List SortSpec
  page_size : Nat
  filter : Option FilterObj
  start_cursor : Option (List Nat)
  deriving DecidableEq

/-- The default sort of the query handlers: by creation time, descending. -/
def defaultSorts : List SortSpec := [⟨.timestampCreated, true⟩]

/-- The query construction shared by `src/api/queryDatabase.js`
(lines 31-41) and `src/unnamed/part_009` (lines 165-182): `sorts` defaults
to creation-time descending, `page_size` defaults to 5 (JavaScript
truthiness: an explicit 0 is falsy and also yields 5), `filter` is
forwarded when present, `start_cursor` when present and non-empty. -/
def buildQueryData (b : QueryReqBody) : QueryData :=
  { sorts := match b.sorts with
      | some s => s
      | none => defaultSorts
  , page_size := match b.page_size with
      | some n => if n = 0 then 5 else n
      | none => 5
  , filter := b.filter
  , start_cursor := match b.start_cursor with
      | some c => if c = [] then none else some c
      | none => none }

/-- The query construction of the unified handler `src/unnamed/part_006`
(lines 272-281): the page size (default 10) is capped at 100 and the sort
is always by the `Created time` property descending; caller sorts, filter
and cursor are not forwarded. -/
def unifiedQueryData (pageSize : Option Nat) : QueryData :=
  { sorts := [⟨.property (strCodes "Created time"), true⟩]
  , page_size := min (pageSize.getD 10) 100
  , filter := none
  , start_cursor := none }

/-- JavaScript truthiness of an optional string field: present and
non-empty. -/
def truthy : Option (List Nat) → Bool
  | none => false
  | some s => !s.isEmpty

/-- A typed Notion property value as built by the mappers. -/
inductive PropValue where
  | title (content : List Nat)
  | richText (content : List Nat)
  | date (start : List Nat)
  | select (name : List Nat)
  | multiSelect (names : List (List Nat))
  deriving DecidableEq

/-- `data.title || "Untitled Case"`: the stored title content, defaulting
when the field is absent or empty. -/
def orDefaultTitle (o : Option (List Nat)) : List Nat :=
  match o with
  | some s => if s = [] then strCodes "Untitled Case" else s
  | none => strCodes "Untitled Case"

/-- A rich-text property whose content is the field value or the empty
string. -/
def richTextOf (o : Option (List Nat)) : PropValue := .richText (o.getD [])

/-- The user-entered case record as the mappers read it. -/
structure CaseData where
  title : Option (List Nat)
  caseNumber : Option (List Nat)
  court : Option (List Nat)
  judge : Option (List Nat)
  date : Option (List Nat)
  status : Option (List Nat)
  parties : Option (List Nat)
  type : Option (List Nat)
  summary : Option (List Nat)
  outcome : Option (List Nat)
  tags : Option (List Nat)
  priority : Option (List Nat)

/-- A whitespace character code as trimmed by String.prototype.trim. -/
def isWsCode (n : Nat) : Bool :=
  n = 32 || n = 9 || n = 10 || n = 13 || n = 11 || n = 12

/-- Split a code list at commas (code 44), keeping empty segments. -/
def splitOnComma : List Nat → List (List Nat)
  | [] => [[]]
  | c :: rest =>
    let r := splitOnComma rest
    if c = 44 then [] :: r
    else match r with
      | [] => [[c]]
      | h :: t => (c :: h) :: t

/-- String.prototype.trim on a code list. -/
def trimCodes (s : List Nat) : List Nat :=
  ((s.dropWhile isWsCode).reverse.dropWhile isWsCode).reverse

/-- The tag parsing of both mappers: split on commas, trim each piece, drop
the empty pieces. -/
def parseTags (s : List Nat) : List (List Nat) :=
  ((splitOnComma s).map trimCodes).filter (fun t => !t.isEmpty)

/-- The `buildNotionProperties` of `src/api/notion.js` (lines 166-294):
Title is always present, defaulting to `Untitled Case`; every other
property is added only when its source field is truthy, and Tags only when
the parsed tag list is non-empty. -/
def buildNotionProperties (d : CaseData) : List (List Nat × PropValue) :=
  [(strCodes "Title", .title (orDefaultTitle d.title))]
  ++ (if truthy d.caseNumber then
        [(strCodes "Case Number", richTextOf d.caseNumber)] else [])
  ++ (if truthy d.court then [(strCodes "Court", richTextOf d.court)] else [])
  ++ (if truthy d.judge then [(strCodes "Judge", richTextOf d.judge)] else [])
  ++ (if truthy d.date then
        [(strCodes "Date", .date (d.date.getD []))] else [])
  ++ (if truthy d.status then
        [(strCodes "Status", .select (d.status.getD []))] else [])
  ++ (if truthy d.parties then
        [(strCodes "Parties", richTextOf d.parties)] else [])
  ++ (if truthy d.type then
        [(strCodes "Type", .select (d.type.getD []))] else [])
  ++ (if truthy d.summary then
        [(strCodes "Summary", richTextOf d.summary)] else [])
  ++ (if truthy d.outcome then
        [(strCodes "Outcome", richTextOf d.outcome)] else [])
  ++ (if truthy d.tags && !(parseTags (d.tags.getD [])).isEmpty then
        [(strCodes "Tags", .multiSelect (parseTags (d.tags.getD [])))]
      else [])
  ++ (if truthy d.priority then
        [(strCodes "Priority", .select (d.priority.getD []))] else [])

/-- The property construction of `createNotionPage` in the GitHub-issues
variant (second document of `src/createPage.js`): Title defaults the same
way, but the six rich-text properties are always present (with empty
content when the field is absent); only Date, Status, Type, Priority and
Tags are conditional. -/
def createNotionPageProperties (d : CaseData) : List (List Nat × PropValue) :=
  [(strCodes "Title", .title (orDefaultTitle d.title)),
   (strCodes "Case Number", richTextOf d.caseNumber),
   (strCodes "Court", richTextOf d.court),
   (strCodes "Judge", richTextOf d.judge),
   (strCodes "Parties", richTextOf d.parties),
   (strCodes "Summary", richTextOf d.summary),
   (strCodes "Outcome", richTextOf d.outcome)]
  ++ (if truthy d.date then
        [(strCodes "Date", .date (d.date.getD []))] else [])
  ++ (if truthy d.status then
        [(strCodes "Status", .select (d.status.getD []))] else [])
  ++ (if truthy d.type then
        [(strCodes "Type", .select (d.type.getD []))] else [])
  ++ (if truthy d.priority then
        [(strCodes "Priority", .select (d.priority.getD []))] else [])
  ++ (if truthy d.tags && !(parseTags (d.tags.getD [])).isEmpty then
        [(strCodes "Tags", .multiSelect (parseTags (d.tags.getD [])))]
      else [])

/-- First-match lookup of a property by key in a built property map. -/
def propLookup : List (List Nat × PropValue) → List Nat → Option PropValue
  | [], _ => none
  | (k, v) :: rest, key => if k = key then some v else propLookup rest key

/-- The record with every field absent. -/
def emptyCaseData : CaseData :=
  ⟨none, none, none, none, none, none, none, none, none, none, none, none⟩

/-! ## Helper lemmas -/

theorem containsSub_of_isPrefixCodes {needle hay : List Nat}
    (h : isPrefixCodes needle hay = true) : containsSub needle hay = true := by
  cases hay with
  | nil => simpa [containsSub] using h
  | cons a t => simp [containsSub, h]

theorem isPrefixCodes_trans {a b l : List Nat}
    (hab : isPrefixCodes a b = true) (hbl : isPrefixCodes b l = true) :
    isPrefixCodes a l = true := by
  induction a generalizing b l with
  | nil => simp [isPrefixCodes]
  | cons x xs ih =>
    cases b with
    | nil => simp [isPrefixCodes] at hab
    | cons y ys =>
      cases l with
      | nil => simp [isPrefixCodes] at hbl
      | cons z zs =>
        simp only [isPrefixCodes, Bool.and_eq_true, beq_iff_eq] at hab hbl ⊢
        exact ⟨hab.1.trans hbl.1, ih hab.2 hbl.2⟩

theorem isHexCode_toLowerCode (n : Nat) :
    isHexCode (toLowerCode n) = isHexCode n := by
  unfold isHexCode toLowerCode
  split
  · exact decide_eq_decide.mpr (by omega)
  · rfl

theorem toLowerCode_eq_dash (n : Nat) : (toLowerCode n = 45) ↔ n = 45 := by
  unfold toLowerCode
  split <;> omega

theorem stripDashes_map_toLower (s : List Nat) :
    stripDashes (s.map toLowerCode) = (stripDashes s).map toLowerCode := by
  unfold stripDashes
  rw [List.filter_map]
  congr 1
  apply List.filter_congr
  intro x _
  simp [toLowerCode_eq_dash]

theorem matchesHex32_map_toLower (s : List Nat) :
    matchesHex32 (s.map toLowerCode) = matchesHex32 s := by
  unfold matchesHex32
  rw [List.length_map, List.all_map]
  have : (isHexCode ∘ toLowerCode) = isHexCode := by
    funext n; exact isHexCode_toLowerCode n
  rw [this]

theorem stripDashes_idem (s : List Nat) :
    stripDashes (stripDashes s) = stripDashes s := by
  unfold stripDashes
  rw [List.filter_filter]
  simp

theorem propLookup_append (l1 l2 : List (List Nat × PropValue)) (key : List Nat) :
    propLookup (l1 ++ l2) key =
      match propLookup l1 key with
      | some v => some v
      | none => propLookup l2 key := by
  induction l1 with
  | nil => simp [propLookup]
  | cons a t ih =>
    obtain ⟨k, v⟩ := a
    by_cases h : k = key <;> simp [propLookup, h, ih]

theorem propLookup_if_singleton (c : Bool) (k v key) :
    propLookup (if c then [(k, v)] else []) key =
      if c then (if k = key then some v else none) else none := by
  cases c <;> simp [propLookup]

theorem propLookup_ite (c : Prop) [Decidable c] (k v key) :
    propLookup (if c then [(k, v)] else []) key =
      if c then (if k = key then some v else none) else none := by
  split <;> simp [propLookup]

/-! ## Claim theorems -/

/-- Claim C1: for every database id not yet cached whose upstream read
succeeds with a non-empty data-source list, the first `getDataSourceId`
call issues exactly one upstream database read and stores the mapping, and
the second call with the same id returns the cached value with no further
network call and no state change. -/
theorem resolver_caches_single_upstream_read
    (upstream : String → UpstreamDbRead) (st : ResolverState)
    (dbId d : String) (tl : List String)
    (h1 : cacheLookup st.cache dbId = none)
    (h2 : upstream dbId = .ok (some (d :: tl))) :
    getDataSourceId upstream st dbId =
      (.ok d, ⟨(dbId, d) :: st.cache, st.calls + 1⟩) ∧
    getDataSourceId upstream ⟨(dbId, d) :: st.cache, st.calls + 1⟩ dbId =
      (.ok d, ⟨(dbId, d) :: st.cache, st.calls + 1⟩) := by
  constructor
  · simp [getDataSourceId, h1, h2]
  · simp [getDataSourceId, cacheLookup]

/-- Witness for C1 at a concrete upstream and id. -/
theorem resolver_caches_single_upstream_read_witness :
    getDataSourceId (fun _ => .ok (some ["ds_1"])) ⟨[], 0⟩ "db1" =
      (.ok "ds_1", ⟨[("db1", "ds_1")], 1⟩) ∧
    getDataSourceId (fun _ => .ok (some ["ds_1"])) ⟨[("db1", "ds_1")], 1⟩ "db1" =
      (.ok "ds_1", ⟨[("db1", "ds_1")], 1⟩) :=
  resolver_caches_single_upstream_read
    (fun _ => .ok (some ["ds_1"])) ⟨[], 0⟩ "db1" "ds_1" [] rfl rfl

/-- Claim C2: when the upstream database read succeeds but the data-source
list is empty or absent, resolution fails with the no-data-source error and
the cache is unchanged (one upstream read was issued, nothing stored). -/
theorem resolver_no_data_source_leaves_cache
    (upstream : String → UpstreamDbRead) (st : ResolverState) (dbId : String)
    (h1 : cacheLookup st.cache dbId = none)
    (h2 : upstream dbId = .ok (some []) ∨ upstream dbId = .ok none) :
    getDataSourceId upstream st dbId =
      (.noDataSource, ⟨st.cache, st.calls + 1⟩) ∧
    (getDataSourceId upstream st dbId).2.cache = st.cache := by
  rcases h2 with h2 | h2 <;>
    refine ⟨by simp [getDataSourceId, h1, h2], ?_⟩ <;>
    simp [getDataSourceId, h1, h2]

/-- Witness for C2 at a concrete upstream returning an empty list. -/
theorem resolver_no_data_source_leaves_cache_witness :
    getDataSourceId (fun _ => .ok (some [])) ⟨[], 3⟩ "db1" =
      (.noDataSource, ⟨[], 4⟩) ∧
    (getDataSourceId (fun _ => .ok (some [])) ⟨[], 3⟩ "db1").2.cache = [] :=
  resolver_no_data_source_leaves_cache
    (fun _ => .ok (some [])) ⟨[], 3⟩ "db1" rfl (Or.inl rfl)

/-- Claim C4: the database-id validation accepts a string exactly when,
after removing all dashes, it is 32 characters from the hex alphabet in
either case; the verdict is invariant under ASCII lower-casing and depends
only on the dash-free content; and an invalid id makes the create-page
handler answer 400 with the error envelope and zero network calls. -/
theorem database_id_validation_characterization
    (s t : List Nat) (env : Env) (props : List (List Nat)) :
    (isValidDatabaseId s = true ↔ specValidDatabaseId s) ∧
    isValidDatabaseId (s.map toLowerCode) = isValidDatabaseId s ∧
    (stripDashes s = stripDashes t →
      isValidDatabaseId s = isValidDatabaseId t) ∧
    (isValidDatabaseId s = false →
      apiCreatePage env (some s) (some props) = (⟨400, true⟩, [])) := by
  refine ⟨?_, ?_, ?_, ?_⟩
  · simp [isValidDatabaseId, matchesHex32, specValidDatabaseId, isHexCode,
      List.all_eq_true]
  · unfold isValidDatabaseId
    rw [stripDashes_map_toLower, matchesHex32_map_toLower]
  · intro h
    unfold isValidDatabaseId
    rw [h]
  · intro h
    unfold apiCreatePage
    simp [h]

/-- Witness for C4: a mixed-case dashed id is accepted; an id with the same
dash-free content is judged identically; a malformed id is rejected with a
400 envelope and no network call. -/
theorem database_id_validation_characterization_witness :
    isValidDatabaseId (strCodes "40C4CEF5-c8cd-4cb4-891a-35c3710df6e9") = true ∧
    isValidDatabaseId (strCodes "40C4CEF5-c8cd-4cb4-891a-35c3710df6e9") =
      isValidDatabaseId (strCodes "40C4CEF5c8cd4cb4891a35c3710df6e9") ∧
    apiCreatePage ⟨fun _ => .ok (some [strCodes "ds_1"]), none⟩
      (some (strCodes "not-an-id")) (some [strCodes "Title"]) =
      (⟨400, true⟩, []) :=
  ⟨(database_id_validation_characterization
      (strCodes "40C4CEF5-c8cd-4cb4-891a-35c3710df6e9")
      (strCodes "40C4CEF5-c8cd-4cb4-891a-35c3710df6e9")
      ⟨fun _ => .ok (some [strCodes "ds_1"]), none⟩ []).1.mpr (by decide),
   (database_id_validation_characterization
      (strCodes "40C4CEF5-c8cd-4cb4-891a-35c3710df6e9")
      (strCodes "40C4CEF5c8cd4cb4891a35c3710df6e9")
      ⟨fun _ => .ok (some [strCodes "ds_1"]), none⟩ []).2.2.1 (by decide),
   (database_id_validation_characterization
      (strCodes "not-an-id")
      (strCodes "not-an-id")
      ⟨fun _ => .ok (some [strCodes "ds_1"]), none⟩
      [strCodes "Title"]).2.2.2 (by decide)⟩

/-- Claim C6: a create-page request whose property map has no truthy Title
entry is answered 400 with the error envelope and the handler issues zero
network calls, whatever the environment and database id. -/
theorem create_page_requires_title_before_network
    (env : Env) (databaseId : Option (List Nat)) (props : List (List Nat))
    (h : props.contains (strCodes "Title") = false) :
    apiCreatePage env databaseId (some props) = (⟨400, true⟩, []) := by
  unfold apiCreatePage
  cases databaseId with
  | none => rfl
  | some dbId =>
    dsimp only
    by_cases hv : isValidDatabaseId dbId = true
    · have h2 : ¬ props.contains (strCodes "Title") = true := by
        intro hc
        rw [h] at hc
        exact Bool.noConfusion hc
      rw [if_pos hv, if_neg h2]
    · rw [if_neg hv]

/-- Witness for C6 at a concrete request lacking Title. -/
theorem create_page_requires_title_before_network_witness :
    apiCreatePage ⟨fun _ => .ok (some [strCodes "ds_1"]), none⟩
      (some (strCodes "40c4cef5c8cd4cb4891a35c3710df6e9"))
      (some [strCodes "Court"]) = (⟨400, true⟩, []) :=
  create_page_requires_title_before_network
    ⟨fun _ => .ok (some [strCodes "ds_1"]), none⟩
    (some (strCodes "40c4cef5c8cd4cb4891a35c3710df6e9"))
    [strCodes "Court"] (by decide)

/-- Claim C3 counterexample: in the unified multi-platform handler a fully
valid create request succeeds (status 201) while the page is posted with a
raw database-id parent, not a data-source parent. -/
theorem create_page_raw_database_parent_counterexample :
    unifiedCreatePage ⟨fun _ => .ok (some [strCodes "ds_1"]), none⟩
      (some (strCodes "40c4cef5c8cd4cb4891a35c3710df6e9"))
      (some [strCodes "Title"]) =
      (⟨201, false⟩,
       [.postPage (.database (strCodes "40c4cef5c8cd4cb4891a35c3710df6e9"))]) := by
  decide

/-- Claim C3 (amended): the data-source-aware handler
(`src/api/createPage.js`) only ever posts a page whose parent is the first
entry of the data-source list obtained from the database read, with parent
type data-source; the unified handler (`src/unnamed/part_006`) instead
always posts the dash-stripped raw database id as parent. -/
theorem create_page_parent_by_variant
    (env : Env) (dbId : List Nat) (props : List (List Nat)) (p : PageParent) :
    (NetCall.postPage p ∈ (apiCreatePage env (some dbId) (some props)).2 →
      ∃ d tl, env.dbRead dbId = .ok (some (d :: tl)) ∧ p = .dataSource d) ∧
    (NetCall.postPage p ∈ (unifiedCreatePage env (some dbId) (some props)).2 →
      p = .database (stripDashes dbId)) := by
  constructor
  · intro hp
    unfold apiCreatePage at hp
    dsimp only at hp
    by_cases hv : isValidDatabaseId dbId = true
    · rw [if_pos hv] at hp
      by_cases ht : props.contains (strCodes "Title") = true
      · rw [if_pos ht] at hp
        cases hdb : env.dbRead dbId with
        | err s =>
          rw [hdb] at hp
          simp at hp
        | ok ds =>
          cases ds with
          | none =>
            rw [hdb] at hp
            simp at hp
          | some l =>
            cases l with
            | nil =>
              rw [hdb] at hp
              simp at hp
            | cons d tl =>
              rw [hdb] at hp
              cases hc : env.createRes with
              | none =>
                rw [hc] at hp
                simp at hp
                exact ⟨d, tl, rfl, hp⟩
              | some s =>
                rw [hc] at hp
                simp at hp
                exact ⟨d, tl, rfl, hp⟩
      · rw [if_neg ht] at hp
        simp at hp
    · rw [if_neg hv] at hp
      simp at hp
  · intro hp
    unfold unifiedCreatePage at hp
    dsimp only at hp
    by_cases hv : matchesHex32 (stripDashes dbId) = true
    · rw [if_pos hv] at hp
      by_cases ht : props.contains (strCodes "Title") = true
      · rw [if_pos ht] at hp
        cases hc : env.createRes with
        | none =>
          rw [hc] at hp
          simpa using hp
        | some s =>
          rw [hc] at hp
          simpa using hp
      · rw [if_neg ht] at hp
        simp at hp
    · rw [if_neg hv] at hp
      simp at hp

/-- Witness for the amended C3 at a concrete environment: the posted parent
in the data-source-aware handler is the first data source. -/
theorem create_page_parent_by_variant_witness :
    ∃ d tl,
      (Env.mk (fun _ => .ok (some [strCodes "ds_1"])) none).dbRead
        (strCodes "40c4cef5c8cd4cb4891a35c3710df6e9") = .ok (some (d :: tl)) ∧
      PageParent.dataSource (strCodes "ds_1") = .dataSource d :=
  (create_page_parent_by_variant
    ⟨fun _ => .ok (some [strCodes "ds_1"]), none⟩
    (strCodes "40c4cef5c8cd4cb4891a35c3710df6e9")
    [strCodes "Title"] (.dataSource (strCodes "ds_1"))).1 (by decide)

/-- Claim C5 counterexample: a success body that starts with the lowercase
token is not classified as an HTML response by `safeNotionRequest`; it is
returned as data. -/
theorem html_detection_case_sensitivity_counterexample :
    isPrefixCodes (strCodes "<!doctype html>")
      (strCodes "<!doctype html>Bad gateway") = true ∧
    safeNotionRequestClassify (strCodes "<!doctype html>Bad gateway") =
      .data (strCodes "<!doctype html>Bad gateway") := by
  constructor
  · decide
  · decide

/-- Claim C5 (amended): the success-path sniffing of `safeNotionRequest`
classifies a body as the HTML failure exactly on the case-sensitive tokens
(any body containing the exact uppercase doctype token or the exact lowered
html tag is classified, and every body is either classified or returned as
data, never an unhandled exception); the error-path handler of the enhanced
client lower-cases first, so a body starting with the doctype token in any
letter case is detected there. -/
theorem html_detection_by_path (body : List Nat) :
    (containsSub (strCodes "<!DOCTYPE html>") body = true →
      safeNotionRequestClassify body = .htmlResponse) ∧
    (containsSub (strCodes "<html>") body = true →
      safeNotionRequestClassify body = .htmlResponse) ∧
    (safeNotionRequestClassify body = .htmlResponse ∨
      safeNotionRequestClassify body = .data body) ∧
    (isPrefixCodes (strCodes "<!doctype html>") (body.map toLowerCode) = true →
      errorHandlerIsHtml body = true) := by
  refine ⟨?_, ?_, ?_, ?_⟩
  · intro h
    unfold safeNotionRequestClassify isHtmlBodySafe
    simp [h]
  · intro h
    unfold safeNotionRequestClassify isHtmlBodySafe
    simp [h]
  · unfold safeNotionRequestClassify
    by_cases h : isHtmlBodySafe body = true
    · exact Or.inl (by simp [h])
    · exact Or.inr (by simp [h])
  · intro h
    have h9 : isPrefixCodes (strCodes "<!doctype") (body.map toLowerCode) = true :=
      isPrefixCodes_trans (by decide) h
    unfold errorHandlerIsHtml
    simp [containsSub_of_isPrefixCodes h9]

/-- Witness for the amended C5: the exact uppercase token is classified on
the success path, and a mixed-case doctype body is detected on the error
path. -/
theorem html_detection_by_path_witness :
    safeNotionRequestClassify (strCodes "<!DOCTYPE html><body>") =
      .htmlResponse ∧
    errorHandlerIsHtml (strCodes "<!DoCtYpE hTmL>oops") = true :=
  ⟨(html_detection_by_path (strCodes "<!DOCTYPE html><body>")).1 (by decide),
   (html_detection_by_path (strCodes "<!DoCtYpE hTmL>oops")).2.2.2 (by decide)⟩

/-- Claim C7 counterexample: the basic credential check of
`src/api/utils.js` accepts a non-empty token that does not start with the
expected prefix convention. -/
theorem credential_prefix_not_checked_counterexample :
    validateNotionConfigBasic (some (strCodes "ntn_wrongkind")) = .ok ∧
    isPrefixCodes (strCodes "secret_") (strCodes "ntn_wrongkind") = false := by
  constructor
  · decide
  · decide

/-- Claim C7 (amended): both credential providers fail when the token is
absent; the enhanced provider (`src/unnamed/part_003`) additionally fails
with a format error when the token does not start with the expected
convention, while the basic provider (`src/api/utils.js`) accepts any
non-empty token. -/
theorem credential_provider_checks (k : List Nat) (hk : k ≠ []) :
    validateNotionConfigBasic none = .errMissing ∧
    validateNotionConfigEnhanced none = .errMissing ∧
    validateNotionConfigBasic (some k) = .ok ∧
    (isPrefixCodes (strCodes "secret_") k = false →
      validateNotionConfigEnhanced (some k) = .errFormat) ∧
    (isPrefixCodes (strCodes "secret_") k = true →
      validateNotionConfigEnhanced (some k) = .ok) := by
  refine ⟨rfl, rfl, ?_, ?_, ?_⟩
  · simp [validateNotionConfigBasic, hk]
  · intro h
    simp [validateNotionConfigEnhanced, hk, h]
  · intro h
    simp [validateNotionConfigEnhanced, hk, h]

/-- Witness for the amended C7 at concrete tokens. -/
theorem credential_provider_checks_witness :
    validateNotionConfigEnhanced (some (strCodes "ntn_wrongkind")) =
      .errFormat ∧
    validateNotionConfigEnhanced (some (strCodes "secret_abc123")) = .ok :=
  ⟨(credential_provider_checks (strCodes "ntn_wrongkind")
      (by decide)).2.2.2.1 (by decide),
   (credential_provider_checks (strCodes "secret_abc123")
      (by decide)).2.2.2.2 (by decide)⟩

/-- Claim C8 counterexample: the test-connection handler answers a timed-out
call with status 408, not 504. -/
theorem timeout_status_counterexample :
    testConnectionCatch timeoutError = ⟨408, true⟩ ∧ (408 : Nat) ≠ 504 := by
  constructor
  · decide
  · decide

/-- Claim C8 (amended): every client carries the fixed 30000 ms timeout and
a timed-out call always yields the error envelope, but the mapped status
depends on the handler: the shared `sendError` maps an ETIMEDOUT error to
504 (and the query handler, which forwards the raw error, therefore answers
504), while the test-connection and create-page handlers intercept timeouts
and answer 408. -/
theorem timeout_config_and_status_mapping :
    notionClientTimeoutMs = 30000 ∧
    sendErrorResp timeoutError 500 = ⟨504, true⟩ ∧
    queryDatabaseCatch timeoutError = ⟨504, true⟩ ∧
    testConnectionCatch timeoutError = ⟨408, true⟩ ∧
    createPageCatch timeoutError = ⟨408, true⟩ := by
  refine ⟨rfl, ?_, ?_, ?_, ?_⟩ <;> decide

/-- Claim C9 counterexample: the unified handler with no caller page size
queries with page size 10 and a property sort, not the creation-time
descending sort with page size 5. -/
theorem query_defaults_counterexample :
    (unifiedQueryData none).page_size = 10 ∧
    (unifiedQueryData none).sorts ≠ defaultSorts := by
  constructor
  · decide
  · decide

/-- Claim C9 (amended): the query handlers of `src/api/queryDatabase.js`
and the Lambda variant default omitted sorts to creation-time descending
and an omitted (or zero) page size to 5, and forward caller-supplied sorts,
page size, filter and non-empty cursor; the unified handler instead always
sorts by the `Created time` property with a default page size of 10 capped
at 100 and forwards neither sorts nor filter nor cursor. -/
theorem query_defaults_by_variant (b : QueryReqBody) :
    (b.sorts = none → (buildQueryData b).sorts = defaultSorts) ∧
    (∀ s, b.sorts = some s → (buildQueryData b).sorts = s) ∧
    (b.page_size = none → (buildQueryData b).page_size = 5) ∧
    (∀ n, b.page_size = some n → n ≠ 0 →
      (buildQueryData b).page_size = n) ∧
    (buildQueryData b).filter = b.filter ∧
    (∀ c, b.start_cursor = some c → c ≠ [] →
      (buildQueryData b).start_cursor = some c) ∧
    (unifiedQueryData none).page_size = 10 ∧
    (unifiedQueryData none).sorts =
      [⟨.property (strCodes "Created time"), true⟩] := by
  refine ⟨?_, ?_, ?_, ?_, rfl, ?_, rfl, rfl⟩
  · intro h
    simp [buildQueryData, h]
  · intro s h
    simp [buildQueryData, h]
  · intro h
    simp [buildQueryData, h]
  · intro n h hn
    simp [buildQueryData, h, hn]
  · intro c h hc
    simp [buildQueryData, h, hc]

/-- Witness for the amended C9 at concrete request bodies. -/
theorem query_defaults_by_variant_witness :
    (buildQueryData ⟨none, none, none, none⟩).sorts = defaultSorts ∧
    (buildQueryData ⟨none, none, none, none⟩).page_size = 5 ∧
    (buildQueryData
        ⟨some [⟨.timestampCreated, false⟩], some 20, none,
         some (strCodes "cur_1")⟩).page_size = 20 ∧
    (buildQueryData
        ⟨some [⟨.timestampCreated, false⟩], some 20, none,
         some (strCodes "cur_1")⟩).start_cursor = some (strCodes "cur_1") :=
  ⟨(query_defaults_by_variant ⟨none, none, none, none⟩).1 rfl,
   (query_defaults_by_variant ⟨none, none, none, none⟩).2.2.1 rfl,
   (query_defaults_by_variant
      ⟨some [⟨.timestampCreated, false⟩], some 20, none,
       some (strCodes "cur_1")⟩).2.2.2.1 20 rfl (by decide),
   (query_defaults_by_variant
      ⟨some [⟨.timestampCreated, false⟩], some 20, none,
       some (strCodes "cur_1")⟩).2.2.2.2.2.1 (strCodes "cur_1") rfl
      (by decide)⟩

/-- Claim C10 counterexample: the GitHub-issues mapper includes the Case
Number rich-text property with empty content even though the source field
is absent. -/
theorem property_map_counterexample :
    propLookup (createNotionPageProperties emptyCaseData)
      (strCodes "Case Number") = some (.richText []) ∧
    emptyCaseData.caseNumber = none := by
  constructor
  · decide
  · decide

/-- Claim C10 (amended): `buildNotionProperties` always contains a Title
property whose content defaults to `Untitled Case` when the title field is
absent or empty, and contains each other property exactly when its source
field is present and non-empty (Tags additionally requires a non-empty
parsed tag list); the GitHub-issues mapper defaults the Title identically
but always includes the rich-text properties, Case Number among them, with
empty content when the field is absent. -/
theorem property_map_construction (d : CaseData) :
    propLookup (buildNotionProperties d) (strCodes "Title") =
      some (.title (orDefaultTitle d.title)) ∧
    propLookup (buildNotionProperties d) (strCodes "Case Number") =
      (if truthy d.caseNumber then some (richTextOf d.caseNumber)
       else none) ∧
    propLookup (buildNotionProperties d) (strCodes "Court") =
      (if truthy d.court then some (richTextOf d.court) else none) ∧
    propLookup (buildNotionProperties d) (strCodes "Judge") =
      (if truthy d.judge then some (richTextOf d.judge) else none) ∧
    propLookup (buildNotionProperties d) (strCodes "Date") =
      (if truthy d.date then some (.date (d.date.getD [])) else none) ∧
    propLookup (buildNotionProperties d) (strCodes "Status") =
      (if truthy d.status then some (.select (d.status.getD []))
       else none) ∧
    propLookup (buildNotionProperties d) (strCodes "Parties") =
      (if truthy d.parties then some (richTextOf d.parties) else none) ∧
    propLookup (buildNotionProperties d) (strCodes "Type") =
      (if truthy d.type then some (.select (d.type.getD [])) else none) ∧
    propLookup (buildNotionProperties d) (strCodes "Summary") =
      (if truthy d.summary then some (richTextOf d.summary) else none) ∧
    propLookup (buildNotionProperties d) (strCodes "Outcome") =
      (if truthy d.outcome then some (richTextOf d.outcome) else none) ∧
    propLookup (buildNotionProperties d) (strCodes "Tags") =
      (if truthy d.tags && !(parseTags (d.tags.getD [])).isEmpty then
        some (.multiSelect (parseTags (d.tags.getD []))) else none) ∧
    propLookup (buildNotionProperties d) (strCodes "Priority") =
      (if truthy d.priority then some (.select (d.priority.getD []))
       else none) ∧
    propLookup (createNotionPageProperties d) (strCodes "Title") =
      some (.title (orDefaultTitle d.title)) ∧
    propLookup (createNotionPageProperties d) (strCodes "Case Number") =
      some (richTextOf d.caseNumber) := by
  refine ⟨?_, ?_, ?_, ?_, ?_, ?_, ?_, ?_, ?_, ?_, ?_, ?_, ?_, ?_⟩ <;>
    (simp +decide [buildNotionProperties, createNotionPageProperties,
      propLookup_append, propLookup_if_singleton, propLookup_ite,
      propLookup]) <;>
    (split <;> (symm; assumption))

/-- Witness for the amended C10 at a concrete record with an empty title
and a present court. -/
theorem property_map_construction_witness :
    propLookup
      (buildNotionProperties
        ⟨some [], none, some (strCodes "9th Circuit"), none, none, none,
         none, none, none, none, none, none⟩)
      (strCodes "Title") = some (.title (strCodes "Untitled Case")) ∧
    propLookup
      (buildNotionProperties
        ⟨some [], none, some (strCodes "9th Circuit"), none, none, none,
         none, none, none, none, none, none⟩)
      (strCodes "Court") =
      some (.richText (strCodes "9th Circuit")) ∧
    propLookup
      (buildNotionProperties
        ⟨some [], none, some (strCodes "9th Circuit"), none, none, none,
         none, none, none, none, none, none⟩)
      (strCodes "Case Number") = none := by
  have h := property_map_construction
    ⟨some [], none, some (strCodes "9th Circuit"), none, none, none,
     none, none, none, none, none, none⟩
  refine ⟨?_, ?_, ?_⟩
  · rw [h.1]
    decide
  · rw [h.2.2.1]
    decide
  · rw [h.2.1]
    decide

end LawCollector
